import Mathlib

/-!
Verification development for the React-Payable-Integration repository.

The development shallowly embeds the two native Capacitor plugins and the
JavaScript service facade of the repository:

* `BlePlugin.java` (the BLE bridge): each `@PluginMethod` becomes a Lean
  function from an environment (the platform Bluetooth stack's behaviour at
  the moment of the call: permission grants, adapter state, whether a
  platform call throws `SecurityException`, etc.), a plugin state (the four
  pending-call slots, the GATT handle, the discovered-device map) and the
  incoming `PluginCall` (modelled as an id plus its option fields) to the
  successor state together with the call's synchronous effect.  The
  asynchronous `ScanCallback`/`BluetoothGattCallback` handlers become a
  single `handleEvent` step function that returns the successor state, the
  settlements (resolve/reject) it delivers to pending slots, and the
  notifications it pushes to listeners.

* `PayablePlugin.java`: the repository contains two versions of this file
  (one under `android/`, one stand-alone).  Both are embedded, in namespaces
  `Payable.V1` (the `android/` one) and `Payable.V2` (the stand-alone one),
  over a shared state/call model, so they can be compared.

* `bleService.js`: the promise facade's `writeData`/`sendMessage` become
  functions that either fail with the facade's own error or produce the
  `PluginCall` forwarded to the native `write` method.

Java `String` values stay `String`; nullable values become `Option`;
`JSObject` payloads become association lists of `JSVal`; machine integers
are modelled as `Int` (no arithmetic in the code overflows or truncates).
`SecurityException`s thrown by platform calls are modelled by boolean flags
in the environment mirroring the `catch (SecurityException e)` blocks of
the source; `e.getMessage()` is the environment's `secMsg` field.
-/

namespace BleSpec

/-- A JSON-ish value, modelling Capacitor's `JSObject`/`JSArray` payloads. -/
inductive JSVal where
  | str (s : String)
  | num (n : Int)
  | boolean (b : Bool)
  | null
  | arr (xs : List JSVal)
  | obj (fields : List (String × JSVal))

/-- A remote BLE device as the plugin sees it: platform address plus an
optional advertised name (`BluetoothDevice.getName()` may return null). -/
structure Device where
  address : String
  name : Option String
deriving DecidableEq

/-- A discovered GATT characteristic (uuid, property bitmask, permissions). -/
structure Characteristicb where
  uuid : String
  properties : Int
  permissions : Int
deriving DecidableEq

/-- A discovered GATT service. -/
structure Serviceb where
  uuid : String
  isPrimary : Bool
  characteristics : List Characteristicb
deriving DecidableEq

/-- The `BluetoothGatt` transport handle: the device it was opened against
and the services discovered so far (empty until `onServicesDiscovered`). -/
structure Gatt where
  device : Device
  services : List Serviceb
deriving DecidableEq

/-- `BluetoothGatt.getService` (lookup by uuid). -/
def Gatt.getService (g : Gatt) (uuid : String) : Option Serviceb :=
  g.services.find? (fun svc => svc.uuid == uuid)

/-- `BluetoothGattService.getCharacteristic` (lookup by uuid). -/
def Serviceb.getCharacteristic (svc : Serviceb) (uuid : String) : Option Characteristicb :=
  svc.characteristics.find? (fun c => c.uuid == uuid)

/-- An incoming Capacitor `PluginCall`: an identity (two distinct callers
have distinct ids) plus the option data fields the BLE plugin reads. -/
structure PluginCall where
  id : Nat
  method : String := ""
  deviceAddress : Option String := none
  serviceUuid : Option String := none
  characteristicUuid : Option String := none
  value : Option String := none
  mtu : Option Int := none
deriving DecidableEq

/-- How a call (or a pending slot) is completed. -/
inductive Outcome where
  | resolve (payload : List (String × JSVal))
  | reject (msg : String)

/-- The synchronous effect of a plugin method on the incoming call. -/
inductive MethodEff where
  | settled (o : Outcome)
  | parked
  | permissionRequested

/-- The four pending-operation categories of the BLE bridge. -/
inductive SlotCat where
  | scan
  | connect
  | read
  | write
deriving DecidableEq

/-- A settlement delivered asynchronously: which slot category it came
from, the id of the call that was stored there, and the outcome. -/
abbrev Settlement := SlotCat × Nat × Outcome

/-- A notification pushed to registered listeners (`notifyListeners`). -/
inductive Notif where
  | deviceFound (address : String) (name : Option String) (rssi : Int)
  | deviceDisconnected
  | characteristicChanged (charUuid : String) (value : String)

/-- The platform's behaviour at the moment of a call: permission grants,
adapter availability, and, for each platform call the plugin wraps in a
`try`/`catch (SecurityException)` or tests for a boolean result, whether
that call throws resp. succeeds.  `secMsg` stands for `e.getMessage()`. -/
structure Env where
  sdkAtLeastS : Bool
  bluetoothScanGranted : Bool
  bluetoothConnectGranted : Bool
  fineLocationGranted : Bool
  adapterPresent : Bool
  adapterEnabled : Bool
  scannerAvailable : Bool
  secMsg : String
  startScanThrows : Bool
  addressValid : String → Bool
  remoteName : String → Option String
  connectGattThrows : Bool
  disconnectThrows : Bool
  uuidOk : String → Bool
  readInitiateOk : Bool
  readThrows : Bool
  writeInitiateOk : Bool
  writeThrows : Bool
  notifThrows : Bool
  notifLocalOk : Bool
  cccdPresent : Bool
  writeDescOk : Bool
  getServicesThrows : Bool
  mtuOk : Bool
  mtuThrows : Bool
  discoveredResolveThrows : Bool

/-- The mutable fields of `BlePlugin`: one pending-call slot per operation
category, the single GATT handle, and the address-keyed discovered-device
map (insertion ordered, as a `HashMap` snapshot keyed by address). -/
structure BleState where
  activeScanCall : Option Nat
  activeConnectCall : Option Nat
  activeReadCall : Option Nat
  activeWriteCall : Option Nat
  bluetoothGatt : Option Gatt
  discoveredDevices : List (String × Device)
deriving DecidableEq

/-- The slot of a given category. -/
def BleState.slotOf (s : BleState) : SlotCat → Option Nat
  | .scan => s.activeScanCall
  | .connect => s.activeConnectCall
  | .read => s.activeReadCall
  | .write => s.activeWriteCall

/-- `hasRequiredBlePermissions`: Android 12+ needs BLUETOOTH_SCAN and
BLUETOOTH_CONNECT; older versions need ACCESS_FINE_LOCATION. -/
def hasRequiredBlePermissions (env : Env) : Bool :=
  if env.sdkAtLeastS then
    env.bluetoothScanGranted && env.bluetoothConnectGranted
  else
    env.fineLocationGranted

/-- `createDeviceObject`: the JS object built for a discovered device. -/
def createDeviceObject (d : Device) : JSVal :=
  .obj [("address", .str d.address), ("name", .str (d.name.getD ("Unknown")))]

/-- `isEnabled`: always resolves with the adapter's enabled flag. -/
def isEnabled (env : Env) (s : BleState) (_call : PluginCall) : BleState × MethodEff :=
  (s, .settled (.resolve [("enabled", .boolean (env.adapterPresent && env.adapterEnabled))]))

/-- `startScanInternal`: guards (adapter, scanner, pending-scan slot), then
clears the discovered-device map, parks the call and starts the platform
scan; a `SecurityException` from `startScan` empties the slot again. -/
def startScanInternal (env : Env) (s : BleState) (call : PluginCall) : BleState × MethodEff :=
  if !(env.adapterPresent && env.adapterEnabled) then
    (s, .settled (.reject ("Bluetooth is not enabled")))
  else if !env.scannerAvailable then
    (s, .settled (.reject ("BLE Scanner not available")))
  else if s.activeScanCall.isSome then
    (s, .settled (.reject ("Scan already in progress")))
  else
    let s1 := { s with discoveredDevices := [], activeScanCall := some call.id }
    if env.startScanThrows then
      ({ s1 with activeScanCall := none },
        .settled (.reject ("Permission error during scan: " ++ env.secMsg)))
    else
      (s1, .parked)

/-- `startScan`: permission gate, then `startScanInternal`.  When the
permissions are absent the call is handed to the platform permission
request flow (`requestPermissionsIfNeeded`), not rejected. -/
def startScan (env : Env) (s : BleState) (call : PluginCall) : BleState × MethodEff :=
  if !hasRequiredBlePermissions env then (s, .permissionRequested)
  else startScanInternal env s call

/-- `stopScan` (public method): stops the platform scan and resolves with
the devices discovered so far; it does not touch the pending scan slot. -/
def stopScan (_env : Env) (s : BleState) (_call : PluginCall) : BleState × MethodEff :=
  (s, .settled (.resolve
    [("devices", .arr (s.discoveredDevices.map (fun p => createDeviceObject p.2))),
     ("count", .num s.discoveredDevices.length)]))

/-- `connectInternal`: argument guard, pending-connect guard, existing
handle guard, then `getRemoteDevice` + `connectGatt` (either may throw,
leaving the state unchanged); on success the call is parked and the new
GATT handle stored (services still empty until discovery). -/
def connectInternal (env : Env) (s : BleState) (call : PluginCall) : BleState × MethodEff :=
  match call.deviceAddress with
  | none => (s, .settled (.reject ("Device address is required")))
  | some addr =>
    if addr.isEmpty then
      (s, .settled (.reject ("Device address is required")))
    else if s.activeConnectCall.isSome then
      (s, .settled (.reject ("Connection already in progress")))
    else if s.bluetoothGatt.isSome then
      (s, .settled (.reject ("Already connected to a device. Disconnect first.")))
    else if !(env.addressValid addr) then
      (s, .settled (.reject ("Invalid device address: " ++ env.secMsg)))
    else if env.connectGattThrows then
      (s, .settled (.reject ("Permission error during connection: " ++ env.secMsg)))
    else
      ({ s with activeConnectCall := some call.id,
                bluetoothGatt := some { device := { address := addr, name := env.remoteName addr },
                                        services := [] } },
       .parked)

/-- `connect`: permission gate, then `connectInternal`. -/
def connect (env : Env) (s : BleState) (call : PluginCall) : BleState × MethodEff :=
  if !hasRequiredBlePermissions env then (s, .permissionRequested)
  else connectInternal env s call

/-- `permissionsCallback`: retries the original method if the permissions
are now granted, rejects with "BLE permissions denied" otherwise. -/
def permissionsCallback (env : Env) (s : BleState) (call : PluginCall) : BleState × MethodEff :=
  if hasRequiredBlePermissions env then
    if call.method == "startScan" then startScanInternal env s call
    else if call.method == "connect" then connectInternal env s call
    else (s, .settled (.reject ("Permission granted but unknown method: " ++ call.method)))
  else
    (s, .settled (.reject ("BLE permissions denied")))

/-- The private `disconnect()` helper: if a handle exists, tear it down and
null the field — unless the platform teardown throws a
`SecurityException`, in which case the assignment `bluetoothGatt = null`
is skipped and the handle is retained. -/
def disconnectInternal (env : Env) (s : BleState) : BleState :=
  match s.bluetoothGatt with
  | none => s
  | some _ => if env.disconnectThrows then s else { s with bluetoothGatt := none }

/-- The public `disconnect` method: runs the helper, then always resolves
with `{ success: true }`. -/
def disconnect (env : Env) (s : BleState) (_call : PluginCall) : BleState × MethodEff :=
  (disconnectInternal env s, .settled (.resolve [("success", .boolean true)]))

/-- `read`: not-connected guard, argument guard, pending-read guard, then
service/characteristic lookup (each missing target rejects without
touching the slot); only then is the slot filled and the platform read
initiated (throw or false initiation empty the slot again). -/
def read (env : Env) (s : BleState) (call : PluginCall) : BleState × MethodEff :=
  match s.bluetoothGatt with
  | none => (s, .settled (.reject ("Not connected to any device")))
  | some g =>
    match call.serviceUuid, call.characteristicUuid with
    | some su, some cu =>
      if s.activeReadCall.isSome then
        (s, .settled (.reject ("Read operation already in progress")))
      else if !(env.uuidOk su) then
        (s, .settled (.reject ("Invalid UUID format: " ++ env.secMsg)))
      else
        match g.getService su with
        | none => (s, .settled (.reject ("Service not found: " ++ su)))
        | some svc =>
          if !(env.uuidOk cu) then
            (s, .settled (.reject ("Invalid UUID format: " ++ env.secMsg)))
          else
            match svc.getCharacteristic cu with
            | none => (s, .settled (.reject ("Characteristic not found: " ++ cu)))
            | some _ =>
              if env.readThrows then
                (s, .settled (.reject ("Permission error during read: " ++ env.secMsg)))
              else if !env.readInitiateOk then
                (s, .settled (.reject ("Failed to initiate read operation")))
              else
                ({ s with activeReadCall := some call.id }, .parked)
    | _, _ => (s, .settled (.reject ("serviceUuid and characteristicUuid are required")))

/-- `write`: same guard chain as `read` plus the `value` argument.  The
third component is the byte payload handed to `characteristic.setValue`
(`value.getBytes()`, i.e. the UTF-8 text unmodified), `none` on the paths
that never reach `setValue`. -/
def write (env : Env) (s : BleState) (call : PluginCall) :
    BleState × MethodEff × Option String :=
  match s.bluetoothGatt with
  | none => (s, .settled (.reject ("Not connected to any device")), none)
  | some g =>
    match call.serviceUuid, call.characteristicUuid, call.value with
    | some su, some cu, some v =>
      if s.activeWriteCall.isSome then
        (s, .settled (.reject ("Write operation already in progress")), none)
      else if !(env.uuidOk su) then
        (s, .settled (.reject ("Invalid UUID format: " ++ env.secMsg)), none)
      else
        match g.getService su with
        | none => (s, .settled (.reject ("Service not found: " ++ su)), none)
        | some svc =>
          if !(env.uuidOk cu) then
            (s, .settled (.reject ("Invalid UUID format: " ++ env.secMsg)), none)
          else
            match svc.getCharacteristic cu with
            | none => (s, .settled (.reject ("Characteristic not found: " ++ cu)), none)
            | some _ =>
              if env.writeThrows then
                (s, .settled (.reject ("Permission error during write: " ++ env.secMsg)), some v)
              else if !env.writeInitiateOk then
                (s, .settled (.reject ("Failed to initiate write operation")), some v)
              else
                ({ s with activeWriteCall := some call.id }, .parked, some v)
    | _, _, _ =>
      (s, .settled (.reject ("serviceUuid, characteristicUuid, and value are required")), none)

/-- `enableNotifications`: guard chain, then local notification enable,
CCCD descriptor lookup and descriptor write; resolves synchronously. -/
def enableNotifications (env : Env) (s : BleState) (call : PluginCall) : BleState × MethodEff :=
  match s.bluetoothGatt with
  | none => (s, .settled (.reject ("Not connected to any device")))
  | some g =>
    match call.serviceUuid, call.characteristicUuid with
    | some su, some cu =>
      if !(env.uuidOk su) then
        (s, .settled (.reject ("Invalid UUID format: " ++ env.secMsg)))
      else
        match g.getService su with
        | none => (s, .settled (.reject ("Service not found: " ++ su)))
        | some svc =>
          if !(env.uuidOk cu) then
            (s, .settled (.reject ("Invalid UUID format: " ++ env.secMsg)))
          else
            match svc.getCharacteristic cu with
            | none => (s, .settled (.reject ("Characteristic not found: " ++ cu)))
            | some _ =>
              if env.notifThrows then
                (s, .settled (.reject ("Permission error enabling notifications: " ++ env.secMsg)))
              else if !env.notifLocalOk then
                (s, .settled (.reject ("Failed to enable local notification")))
              else if !env.cccdPresent then
                (s, .settled (.reject
                  ("CCCD descriptor not found - characteristic may not support notifications")))
              else if !env.writeDescOk then
                (s, .settled (.reject ("Failed to write CCCD descriptor")))
              else
                (s, .settled (.resolve [("success", .boolean true),
                                        ("message", .str ("Notifications enabled"))]))
    | _, _ => (s, .settled (.reject ("serviceUuid and characteristicUuid are required")))

/-- The JS object built for one service by `getServices`. -/
def serviceObj (svc : Serviceb) : JSVal :=
  .obj [("uuid", .str svc.uuid),
        ("type", .str (if svc.isPrimary then ("primary") else ("secondary"))),
        ("characteristics", .arr (svc.characteristics.map (fun c =>
          .obj [("uuid", .str c.uuid),
                ("properties", .num c.properties),
                ("permissions", .num c.permissions)])))]

/-- `getServices`: resolves with the discovered capability snapshot. -/
def getServices (env : Env) (s : BleState) (_call : PluginCall) : BleState × MethodEff :=
  match s.bluetoothGatt with
  | none => (s, .settled (.reject ("Not connected to any device")))
  | some g =>
    if env.getServicesThrows then
      (s, .settled (.reject ("Permission error getting services: " ++ env.secMsg)))
    else
      (s, .settled (.resolve [("services", .arr (g.services.map serviceObj))]))

/-- `requestMtu`: not-connected guard, fixed [23, 517] bounds check
(rejecting without issuing any hardware request), then the best-effort
platform request; the third component is the value actually handed to
`bluetoothGatt.requestMtu`, `none` when no request was issued. -/
def requestMtu (env : Env) (s : BleState) (call : PluginCall) :
    BleState × MethodEff × Option Int :=
  match s.bluetoothGatt with
  | none => (s, .settled (.reject ("Not connected to any device")), none)
  | some _ =>
    let mtu := call.mtu.getD 512
    if mtu < 23 ∨ mtu > 517 then
      (s, .settled (.reject ("MTU must be between 23 and 517")), none)
    else if env.mtuThrows then
      (s, .settled (.reject ("Permission error requesting MTU: " ++ env.secMsg)), some mtu)
    else if env.mtuOk then
      (s, .settled (.resolve [("success", .boolean true), ("requested", .num mtu)]), some mtu)
    else
      (s, .settled (.reject ("Failed to request MTU")), some mtu)

/-- An asynchronous event delivered by the platform stack to the plugin's
`ScanCallback` / `BluetoothGattCallback`.  `servicesDiscovered` carries the
device identity and service list of the callback's `gatt` argument;
statuses use the platform encoding with `0 = GATT_SUCCESS`. -/
inductive BleEvent where
  | scanResult (address : String) (name : Option String) (rssi : Int)
  | scanFailed (code : Int)
  | scanTimeout
  | connectionStateChange (connected : Bool)
  | servicesDiscovered (status : Int) (dev : Device) (svcs : List Serviceb)
  | characteristicRead (status : Int) (charUuid : String) (value : String)
  | characteristicWrite (status : Int) (charUuid : String)
  | characteristicChanged (charUuid : String) (value : String)
  | mtuChanged (status : Int) (mtu : Int)

/-- The payload value for a possibly-null Java `String`. -/
def jsName : Option String → JSVal
  | none => .null
  | some n => .str n

/-- The asynchronous callback step: state, settlements delivered to the
pending slots, notifications pushed to listeners.  Mirrors `scanCallback`,
the posted scan-timeout lambda, and `gattCallback` of the source. -/
def handleEvent (env : Env) (s : BleState) (e : BleEvent) :
    BleState × List Settlement × List Notif :=
  match e with
  | .scanResult addr name rssi =>
    if (s.discoveredDevices.find? (fun p => p.1 == addr)).isSome then
      (s, [], [])
    else
      ({ s with discoveredDevices :=
           s.discoveredDevices ++ [(addr, { address := addr, name := name })] },
       [], [.deviceFound addr name rssi])
  | .scanFailed code =>
    match s.activeScanCall with
    | some cid =>
      ({ s with activeScanCall := none },
       [(.scan, cid, .reject ("Scan failed with error code: " ++ toString code))], [])
    | none => (s, [], [])
  | .scanTimeout =>
    match s.activeScanCall with
    | some cid =>
      ({ s with activeScanCall := none },
       [(.scan, cid, .resolve
          [("devices", .arr (s.discoveredDevices.map (fun p => createDeviceObject p.2))),
           ("count", .num s.discoveredDevices.length)])], [])
    | none => (s, [], [])
  | .connectionStateChange connected =>
    if connected then (s, [], [])
    else
      match s.activeConnectCall with
      | some cid =>
        ({ s with activeConnectCall := none },
         [(.connect, cid, .reject ("Connection failed or disconnected"))],
         [.deviceDisconnected])
      | none => (s, [], [.deviceDisconnected])
  | .servicesDiscovered status dev svcs =>
    if status == 0 then
      let s1 := { s with bluetoothGatt := s.bluetoothGatt.map (fun g => { g with services := svcs }) }
      match s.activeConnectCall with
      | some cid =>
        if env.discoveredResolveThrows then
          ({ s1 with activeConnectCall := none },
           [(.connect, cid, .reject ("Permission error: " ++ env.secMsg))], [])
        else
          ({ s1 with activeConnectCall := none },
           [(.connect, cid, .resolve
              [("success", .boolean true),
               ("deviceAddress", .str dev.address),
               ("deviceName", jsName dev.name),
               ("servicesCount", .num svcs.length)])], [])
      | none => (s1, [], [])
    else
      match s.activeConnectCall with
      | some cid =>
        ({ s with activeConnectCall := none },
         [(.connect, cid, .reject ("Service discovery failed"))], [])
      | none => (s, [], [])
  | .characteristicRead status charUuid value =>
    if status == 0 then
      match s.activeReadCall with
      | some cid =>
        ({ s with activeReadCall := none },
         [(.read, cid, .resolve [("value", .str value),
                                 ("characteristicUuid", .str charUuid)])], [])
      | none => (s, [], [])
    else
      match s.activeReadCall with
      | some cid =>
        ({ s with activeReadCall := none },
         [(.read, cid, .reject ("Read failed with status: " ++ toString status))], [])
      | none => (s, [], [])
  | .characteristicWrite status charUuid =>
    if status == 0 then
      match s.activeWriteCall with
      | some cid =>
        ({ s with activeWriteCall := none },
         [(.write, cid, .resolve [("success", .boolean true),
                                  ("characteristicUuid", .str charUuid)])], [])
      | none => (s, [], [])
    else
      match s.activeWriteCall with
      | some cid =>
        ({ s with activeWriteCall := none },
         [(.write, cid, .reject ("Write failed with status: " ++ toString status))], [])
      | none => (s, [], [])
  | .characteristicChanged charUuid value => (s, [], [.characteristicChanged charUuid value])
  | .mtuChanged _ _ => (s, [], [])

/-- One discovery event within a scan window. -/
structure ScanEventData where
  address : String
  name : Option String
  rssi : Int

/-- Feed a sequence of discovery events through `handleEvent`, collecting
the emitted notifications. -/
def runScanResults (env : Env) (s : BleState) : List ScanEventData → BleState × List Notif
  | [] => (s, [])
  | ev :: rest =>
    let r := handleEvent env s (.scanResult ev.address ev.name ev.rssi)
    let rr := runScanResults env r.1 rest
    (rr.1, r.2.2 ++ rr.2)

/-- Number of entries of the discovered-device map under a given address. -/
def countKey (a : String) (m : List (String × Device)) : Nat :=
  (m.filter (fun p => p.1 == a)).length

/-- Whether the map already holds an entry for the address
(`discoveredDevices.containsKey`). -/
def containsKey (a : String) (m : List (String × Device)) : Bool :=
  (m.find? (fun p => p.1 == a)).isSome

/-- Number of device-found notifications carrying a given address. -/
def notifCountFor (a : String) (ns : List Notif) : Nat :=
  ns.countP (fun n => match n with
    | .deviceFound addr _ _ => addr == a
    | _ => false)

namespace Payable

/-- The mutable fields of `PayablePlugin` that the exposed methods read:
the single active-call slot and whether `payableClient` was initialized. -/
structure PayState where
  activeCall : Option Nat
  clientInitialized : Bool
deriving DecidableEq

/-- An incoming call to a Payable method: identity plus option fields.
`amount` is the sale amount (only its presence matters to the code). -/
structure PayCall where
  id : Nat
  amount : Option Int := none
  receiptEmail : Option String := none
  receiptSMS : Option String := none
  txId : Option String := none
  cardType : Option Int := none
deriving DecidableEq

/-- The synchronous effect of a Payable method: the call settles, parks in
the slot awaiting an SDK callback, or an exception escapes the method
uncaught (`crash`). -/
inductive PayEff where
  | settled (o : Outcome)
  | parked
  | crash

/-- SDK behaviour at the moment of a call: whether the forwarded SDK
request throws, and the exception's message text. -/
structure PayEnv where
  sdkThrows : Bool
  msg : String

/-- Data of a completed sale as delivered to the payment callbacks. -/
structure SaleData where
  txId : String
  cardNo : String
  cardType : Int
  amount : Int
  message : String
  statusCode : Int

/-- Data delivered to `onVoid`. -/
structure VoidData where
  status : Int
  txId : String
  error : Option String

/-- Data delivered to `onTransactionStatus`. -/
structure TxStatusData where
  txId : String
  status : Int
  amount : Int
  cardType : Int
  error : Option String

/-- A terminal profile as delivered to `onProfileList`. -/
structure ProfileData where
  tid : String
  name : String
  currency : String

/-- `setCall`: reject if the slot is occupied, otherwise store the call.
Identical in both versions of the plugin. -/
def setCall (s : PayState) (call : PayCall) : PayState × Option PayEff :=
  if s.activeCall.isSome then
    (s, some (.settled (.reject ("Another operation is already in progress"))))
  else
    ({ s with activeCall := some call.id }, none)

namespace V1
/-! The `android/app/src/main/java/com/attune/pos/PayablePlugin.java`
version.  Its methods have no `try`/`catch`, no client null-check in
`voidTransaction`/`getTransactionStatus`/`getProfileList` (a null client
there raises an uncaught `NullPointerException`), and the argument
validation failures reject WITHOUT clearing the slot `setCall` filled. -/

/-- `pay` (android/ version). -/
def pay (env : PayEnv) (s : PayState) (call : PayCall) : PayState × PayEff :=
  match setCall s call with
  | (s0, some eff) => (s0, eff)
  | (s1, none) =>
    match call.amount with
    | none => (s1, .settled (.reject ("Amount is required")))
    | some _ =>
      if s.clientInitialized then
        if env.sdkThrows then (s1, .crash) else (s1, .parked)
      else
        ({ s1 with activeCall := none }, .settled (.reject ("Payable Client not initialized")))

/-- `voidTransaction` (android/ version): no client null-check before
`payableClient.requestVoid`. -/
def voidTransaction (env : PayEnv) (s : PayState) (call : PayCall) : PayState × PayEff :=
  match setCall s call with
  | (s0, some eff) => (s0, eff)
  | (s1, none) =>
    match call.txId, call.cardType with
    | some _, some _ =>
      if s.clientInitialized then
        if env.sdkThrows then (s1, .crash) else (s1, .parked)
      else (s1, .crash)
    | _, _ => (s1, .settled (.reject ("txId and cardType are required")))

/-- `getTransactionStatus` (android/ version). -/
def getTransactionStatus (env : PayEnv) (s : PayState) (call : PayCall) : PayState × PayEff :=
  match setCall s call with
  | (s0, some eff) => (s0, eff)
  | (s1, none) =>
    match call.txId, call.cardType with
    | some _, some _ =>
      if s.clientInitialized then
        if env.sdkThrows then (s1, .crash) else (s1, .parked)
      else (s1, .crash)
    | _, _ => (s1, .settled (.reject ("txId and cardType are required")))

/-- `getProfileList` (android/ version). -/
def getProfileList (env : PayEnv) (s : PayState) (call : PayCall) : PayState × PayEff :=
  match setCall s call with
  | (s0, some eff) => (s0, eff)
  | (s1, none) =>
    if s.clientInitialized then
      if env.sdkThrows then (s1, .crash) else (s1, .parked)
    else (s1, .crash)

/-- `onPaymentSuccess`: resolves whatever call is in the slot. -/
def onPaymentSuccess (s : PayState) (r : SaleData) : PayState × List (Nat × Outcome) :=
  match s.activeCall with
  | some cid =>
    ({ s with activeCall := none },
     [(cid, .resolve [("status", .str ("success")),
                      ("txnId", .str r.txId),
                      ("cardNo", .str r.cardNo),
                      ("cardType", .num r.cardType),
                      ("amount", .num r.amount)])])
  | none => (s, [])

/-- `onPaymentFailure`: rejects the pending call with the sale's message. -/
def onPaymentFailure (s : PayState) (r : SaleData) : PayState × List (Nat × Outcome) :=
  match s.activeCall with
  | some cid => ({ s with activeCall := none }, [(cid, .reject r.message)])
  | none => (s, [])

/-- `onVoid`: status 222 resolves, anything else rejects. -/
def onVoid (s : PayState) (r : VoidData) : PayState × List (Nat × Outcome) :=
  match s.activeCall with
  | some cid =>
    ({ s with activeCall := none },
     [(cid, if r.status == 222 then
        .resolve [("status", .num r.status), ("txId", .str r.txId), ("error", jsName r.error)]
      else
        .reject (r.error.getD ("Void Failed")))])
  | none => (s, [])

/-- `onTransactionStatus`: always resolves the pending call. -/
def onTransactionStatus (s : PayState) (r : TxStatusData) : PayState × List (Nat × Outcome) :=
  match s.activeCall with
  | some cid =>
    ({ s with activeCall := none },
     [(cid, .resolve [("txId", .str r.txId), ("status", .num r.status),
                      ("amount", .num r.amount), ("cardType", .num r.cardType),
                      ("error", jsName r.error)])])
  | none => (s, [])

/-- `onProfileList`: resolves with the profile array. -/
def onProfileList (s : PayState) (ps : List ProfileData) : PayState × List (Nat × Outcome) :=
  match s.activeCall with
  | some cid =>
    ({ s with activeCall := none },
     [(cid, .resolve [("profiles", .arr (ps.map (fun p =>
        .obj [("tid", .str p.tid), ("name", .str p.name),
              ("currency", .str p.currency)])))])])
  | none => (s, [])

end V1

namespace V2
/-! The stand-alone logging version of `PayablePlugin.java`.  Its methods
wrap everything in `try`/`catch (Exception)` (an SDK throw settles the call
with an "SDK Error ..." rejection and clears the slot), null-check the
client before every SDK request, and clear the slot whenever argument
validation fails. -/

/-- `pay` (logging version): validation failure clears the slot. -/
def pay (env : PayEnv) (s : PayState) (call : PayCall) : PayState × PayEff :=
  match setCall s call with
  | (s0, some eff) => (s0, eff)
  | (s1, none) =>
    match call.amount with
    | none => ({ s1 with activeCall := none }, .settled (.reject ("Amount is required")))
    | some _ =>
      if s.clientInitialized then
        if env.sdkThrows then
          ({ s1 with activeCall := none },
           .settled (.reject ("SDK Error during payment initiation: " ++ env.msg)))
        else (s1, .parked)
      else
        ({ s1 with activeCall := none },
         .settled (.reject ("Payable Client not initialized. Please check configuration.")))

/-- `voidTransaction` (logging version). -/
def voidTransaction (env : PayEnv) (s : PayState) (call : PayCall) : PayState × PayEff :=
  match setCall s call with
  | (s0, some eff) => (s0, eff)
  | (s1, none) =>
    match call.txId, call.cardType with
    | some _, some _ =>
      if s.clientInitialized then
        if env.sdkThrows then
          ({ s1 with activeCall := none },
           .settled (.reject ("SDK Error during void request: " ++ env.msg)))
        else (s1, .parked)
      else
        ({ s1 with activeCall := none },
         .settled (.reject ("Payable Client not initialized. Please check configuration.")))
    | _, _ => ({ s1 with activeCall := none },
               .settled (.reject ("txId and cardType are required")))

/-- `getTransactionStatus` (logging version). -/
def getTransactionStatus (env : PayEnv) (s : PayState) (call : PayCall) : PayState × PayEff :=
  match setCall s call with
  | (s0, some eff) => (s0, eff)
  | (s1, none) =>
    match call.txId, call.cardType with
    | some _, some _ =>
      if s.clientInitialized then
        if env.sdkThrows then
          ({ s1 with activeCall := none },
           .settled (.reject ("SDK Error during transaction status request: " ++ env.msg)))
        else (s1, .parked)
      else
        ({ s1 with activeCall := none },
         .settled (.reject ("Payable Client not initialized. Please check configuration.")))
    | _, _ => ({ s1 with activeCall := none },
               .settled (.reject ("txId and cardType are required")))

/-- `getProfileList` (logging version). -/
def getProfileList (env : PayEnv) (s : PayState) (call : PayCall) : PayState × PayEff :=
  match setCall s call with
  | (s0, some eff) => (s0, eff)
  | (s1, none) =>
    if s.clientInitialized then
      if env.sdkThrows then
        ({ s1 with activeCall := none },
         .settled (.reject ("SDK Error during profile list request: " ++ env.msg)))
      else (s1, .parked)
    else
      ({ s1 with activeCall := none },
       .settled (.reject ("Payable Client not initialized. Please check configuration.")))

/-- `onPaymentSuccess` (logging version): same resolution as V1's. -/
def onPaymentSuccess (s : PayState) (r : SaleData) : PayState × List (Nat × Outcome) :=
  V1.onPaymentSuccess s r

/-- `onPaymentFailure` (logging version). -/
def onPaymentFailure (s : PayState) (r : SaleData) : PayState × List (Nat × Outcome) :=
  V1.onPaymentFailure s r

/-- `onVoid` (logging version). -/
def onVoid (s : PayState) (r : VoidData) : PayState × List (Nat × Outcome) :=
  V1.onVoid s r

/-- `onTransactionStatus` (logging version). -/
def onTransactionStatus (s : PayState) (r : TxStatusData) : PayState × List (Nat × Outcome) :=
  V1.onTransactionStatus s r

/-- `onProfileList` (logging version). -/
def onProfileList (s : PayState) (ps : List ProfileData) : PayState × List (Nat × Outcome) :=
  V1.onProfileList s ps

end V2

end Payable

namespace BleService
/-! The JavaScript service facade (`src/bleService.js`). -/

/-- The facade's process-wide mutable state: the currently connected
device and the currently selected service/characteristic pair. -/
structure ServiceState where
  connectedDevice : Option Device
  selectedService : Option String
  selectedCharacteristic : Option String

/-- `writeData(value, serviceUuid, characteristicUuid)`: connectivity and
selection guards, then the `Ble.write` request it forwards — the `value`
field is passed through unmodified, no framing is added. -/
def writeData (st : ServiceState) (value : String)
    (serviceUuid characteristicUuid : Option String) : Except String PluginCall :=
  match st.connectedDevice with
  | none => .error ("Not connected to any device")
  | some _ =>
    let sUuid := serviceUuid.orElse (fun _ => st.selectedService)
    let cUuid := characteristicUuid.orElse (fun _ => st.selectedCharacteristic)
    match sUuid, cUuid with
    | some su, some cu =>
      .ok { id := 0, serviceUuid := some su, characteristicUuid := some cu,
            value := some value }
    | _, _ => .error ("Service and Characteristic must be selected")

/-- `sendMessage(message)`: forwards the message to `writeData` as-is.
This is the only message/command sending method `bleService.js` defines;
the `sendCommand` helper described in the repository's own documentation
(`BLE_SETUP.md`: "Sends Cmd:{command}") and invoked by `App_temp.js` is
absent from the file. -/
def sendMessage (st : ServiceState) (message : String) : Except String PluginCall :=
  writeData st message none none

end BleService

/-! ## Concrete fixtures used by witnesses and counterexamples -/

/-- A benign platform environment: Android 12+, all permissions granted,
adapter up, no platform call throws, every initiation succeeds. -/
def envGood : Env :=
  { sdkAtLeastS := true
    bluetoothScanGranted := true
    bluetoothConnectGranted := true
    fineLocationGranted := true
    adapterPresent := true
    adapterEnabled := true
    scannerAvailable := true
    secMsg := "denied"
    startScanThrows := false
    addressValid := fun _ => true
    remoteName := fun _ => none
    connectGattThrows := false
    disconnectThrows := false
    uuidOk := fun _ => true
    readInitiateOk := true
    readThrows := false
    writeInitiateOk := true
    writeThrows := false
    notifThrows := false
    notifLocalOk := true
    cccdPresent := true
    writeDescOk := true
    getServicesThrows := false
    mtuOk := true
    mtuThrows := false
    discoveredResolveThrows := false }

/-- Android 12+ with every permission revoked (otherwise benign). -/
def envNoPerm : Env :=
  { envGood with
    bluetoothScanGranted := false
    bluetoothConnectGranted := false
    fineLocationGranted := false }

/-- An environment in which the platform teardown called by the private
`disconnect()` throws a `SecurityException`. -/
def envThrowDisc : Env := { envGood with disconnectThrows := true }

/-- The idle plugin state: no pending calls, no handle, no discoveries. -/
def s0 : BleState :=
  { activeScanCall := none
    activeConnectCall := none
    activeReadCall := none
    activeWriteCall := none
    bluetoothGatt := none
    discoveredDevices := [] }

/-- The repository's hard-coded characteristic, as a discovered node. -/
def char0 : Characteristicb :=
  { uuid := "beb5483e-36e1-4688-b7f5-ea07361b26a8", properties := 26, permissions := 0 }

/-- The repository's hard-coded service, holding `char0`. -/
def svc0 : Serviceb :=
  { uuid := "4fafc201-1fb5-459e-8fcc-c5c9c331914b", isPrimary := true,
    characteristics := [char0] }

/-- The demo peripheral. -/
def dev0 : Device := { address := "AA:BB:CC:DD:EE:FF", name := some ("ESP32_Tablet_Link") }

/-- A GATT handle with discovery completed against `dev0`. -/
def g0 : Gatt := { device := dev0, services := [svc0] }

/-- The plugin state connected to `dev0` with discovery done. -/
def sConn : BleState := { s0 with bluetoothGatt := some g0 }

/-! ## C10 — `requestMtu` bounds validation -/

/-- C10: in every connected state, `requestMtu` rejects any requested
value outside [23, 517] with "MTU must be between 23 and 517", issuing no
hardware request and changing no state; for values inside the bounds the
state is unchanged, the hardware request is issued with exactly the
requested value, and (when the platform neither throws nor refuses) the
call resolves echoing the requested value back. -/
theorem requestMtu_bounds (env : Env) (s : BleState) (c : PluginCall) (g : Gatt)
    (hg : s.bluetoothGatt = some g) :
    ((c.mtu.getD 512 < 23 ∨ c.mtu.getD 512 > 517) →
      requestMtu env s c = (s, .settled (.reject ("MTU must be between 23 and 517")), none))
    ∧ (23 ≤ c.mtu.getD 512 → c.mtu.getD 512 ≤ 517 →
      (requestMtu env s c).1 = s ∧
      (requestMtu env s c).2.2 = some (c.mtu.getD 512) ∧
      (env.mtuThrows = false → env.mtuOk = true →
        (requestMtu env s c).2.1 =
          .settled (.resolve [("success", .boolean true),
                              ("requested", .num (c.mtu.getD 512))]))) := by
  constructor
  · intro h
    simp only [requestMtu, hg]
    rw [if_pos h]
  · intro h1 h2
    have hn : ¬(c.mtu.getD 512 < 23 ∨ c.mtu.getD 512 > 517) := by omega
    simp only [requestMtu, hg]
    rw [if_neg hn]
    refine ⟨?_, ?_, ?_⟩
    · by_cases ht : env.mtuThrows <;> by_cases ho : env.mtuOk <;> simp [ht, ho]
    · by_cases ht : env.mtuThrows <;> by_cases ho : env.mtuOk <;> simp [ht, ho]
    · intro ht ho
      simp [ht, ho]

/-- Witness for C10 at concrete inputs: a request of 600 is rejected
without a hardware request, a request of 512 resolves echoing 512. -/
theorem requestMtu_bounds_witness :
    requestMtu envGood sConn { id := 9, mtu := some 600 } =
      (sConn, .settled (.reject ("MTU must be between 23 and 517")), none)
    ∧ (requestMtu envGood sConn { id := 9, mtu := some 512 }).2.1 =
      .settled (.resolve [("success", .boolean true), ("requested", .num 512)]) := by
  constructor
  · exact (requestMtu_bounds envGood sConn { id := 9, mtu := some 600 } g0 rfl).1
      (by decide)
  · exact ((requestMtu_bounds envGood sConn { id := 9, mtu := some 512 } g0 rfl).2
      (by decide) (by decide)).2.2 rfl rfl

/-! ## C6 — read/write on an unknown service/characteristic -/

/-- C6: in every connected state with free read/write slots, a read or
write naming a service identifier absent from the discovered snapshot is
rejected with "Service not found: ..."; one naming a known service but an
absent characteristic is rejected with "Characteristic not found: ...".
In all four cases the state (in particular the pending slot of the
category) is unchanged and the write transmits nothing. -/
theorem read_write_target_not_found (env : Env) (s : BleState) (c : PluginCall)
    (g : Gatt) (su cu v : String)
    (hg : s.bluetoothGatt = some g)
    (hsu : c.serviceUuid = some su) (hcu : c.characteristicUuid = some cu)
    (hv : c.value = some v)
    (hups : env.uuidOk su = true) (hupc : env.uuidOk cu = true)
    (hrs : s.activeReadCall = none) (hws : s.activeWriteCall = none) :
    (g.getService su = none →
      read env s c = (s, .settled (.reject ("Service not found: " ++ su))) ∧
      write env s c = (s, .settled (.reject ("Service not found: " ++ su)), none))
    ∧ (∀ svc, g.getService su = some svc → svc.getCharacteristic cu = none →
      read env s c = (s, .settled (.reject ("Characteristic not found: " ++ cu))) ∧
      write env s c = (s, .settled (.reject ("Characteristic not found: " ++ cu)), none)) := by
  constructor
  · intro hns
    constructor
    · simp [read, hg, hsu, hcu, hups, hrs, hns]
    · simp [write, hg, hsu, hcu, hv, hups, hws, hns]
  · intro svc hsvc hnc
    constructor
    · simp [read, hg, hsu, hcu, hups, hupc, hrs, hsvc, hnc]
    · simp [write, hg, hsu, hcu, hv, hups, hupc, hws, hsvc, hnc]

/-- Witness for C6 at concrete inputs: against the connected fixture, a
read naming an unknown service and a write naming a known service but an
unknown characteristic are both rejected with target-not-found, leaving
the state untouched. -/
theorem read_write_target_not_found_witness :
    read envGood sConn { id := 4, serviceUuid := some ("beef"),
                         characteristicUuid := some ("cafe"), value := some ("x") } =
      (sConn, .settled (.reject ("Service not found: " ++ "beef")))
    ∧ write envGood sConn
        { id := 4, serviceUuid := some ("4fafc201-1fb5-459e-8fcc-c5c9c331914b"),
          characteristicUuid := some ("cafe"), value := some ("x") } =
      (sConn, .settled (.reject ("Characteristic not found: " ++ "cafe")), none) := by
  constructor
  · exact ((read_write_target_not_found envGood sConn
      { id := 4, serviceUuid := some ("beef"), characteristicUuid := some ("cafe"),
        value := some ("x") }
      g0 ("beef") ("cafe") ("x") rfl rfl rfl rfl rfl rfl rfl rfl).1 (by decide)).1
  · exact ((read_write_target_not_found envGood sConn
      { id := 4, serviceUuid := some ("4fafc201-1fb5-459e-8fcc-c5c9c331914b"),
        characteristicUuid := some ("cafe"), value := some ("x") }
      g0 ("4fafc201-1fb5-459e-8fcc-c5c9c331914b") ("cafe") ("x")
      rfl rfl rfl rfl rfl rfl rfl rfl).2 svc0 (by decide) (by decide)).2

/-! ## C3 — disconnect idempotence and handle release -/

/-- C3 counterexample: in the connected state, when the platform teardown
throws a `SecurityException` (the `catch` block of the private
`disconnect()` only logs), the call still resolves with success but the
transport handle is NOT released — refuting "calling disconnect ... leaves
the transport handle released (set to none)" for every bridge state. -/
theorem disconnect_release_counterexample :
    (disconnect envThrowDisc sConn { id := 11 }).1.bluetoothGatt = some g0
    ∧ (disconnect envThrowDisc sConn { id := 11 }).1.bluetoothGatt ≠ none
    ∧ (disconnect envThrowDisc sConn { id := 11 }).2 =
        .settled (.resolve [("success", .boolean true)]) := by
  refine ⟨rfl, ?_, rfl⟩
  intro h
  simp [disconnect, disconnectInternal, envThrowDisc, sConn, envGood, s0] at h

/-- C3 amended: `disconnect` always completes without error (resolving
with `{ success: true }`), in every bridge state including the one with no
active connection; it releases the transport handle whenever the platform
teardown does not throw a `SecurityException` (when it throws, the handle
is retained); and applying it twice always ends in the same state as
applying it once. -/
theorem disconnect_idempotent_amended (env : Env) (s : BleState) (c c' : PluginCall) :
    (disconnect env s c).2 = .settled (.resolve [("success", .boolean true)])
    ∧ (env.disconnectThrows = false → (disconnect env s c).1.bluetoothGatt = none)
    ∧ (disconnect env (disconnect env s c).1 c').1 = (disconnect env s c).1 := by
  refine ⟨rfl, ?_, ?_⟩
  · intro ht
    cases hg : s.bluetoothGatt <;>
      simp [disconnect, disconnectInternal, hg, ht]
  · cases hg : s.bluetoothGatt with
    | none => simp [disconnect, disconnectInternal, hg]
    | some g =>
      by_cases ht : env.disconnectThrows <;>
        simp [disconnect, disconnectInternal, hg, ht]

/-- Witness for C3 (amended) at concrete inputs: under the benign
environment, disconnecting the connected fixture resolves with success and
releases the handle, and a second disconnect leaves the state unchanged;
disconnecting the idle state also resolves with success. -/
theorem disconnect_idempotent_amended_witness :
    (disconnect envGood sConn { id := 11 }).2 =
      .settled (.resolve [("success", .boolean true)])
    ∧ (disconnect envGood sConn { id := 11 }).1.bluetoothGatt = none
    ∧ (disconnect envGood (disconnect envGood sConn { id := 11 }).1 { id := 12 }).1 =
        (disconnect envGood sConn { id := 11 }).1
    ∧ (disconnect envGood s0 { id := 13 }).2 =
      .settled (.resolve [("success", .boolean true)]) := by
  refine ⟨(disconnect_idempotent_amended envGood sConn { id := 11 } { id := 12 }).1,
          (disconnect_idempotent_amended envGood sConn { id := 11 } { id := 12 }).2.1 rfl,
          (disconnect_idempotent_amended envGood sConn { id := 11 } { id := 12 }).2.2,
          (disconnect_idempotent_amended envGood s0 { id := 13 } { id := 13 }).1⟩

/-! ## C8 — at most one connection / handle lifecycle -/

/-- A freshly opened handle, before service discovery. -/
def gFresh : Gatt := { device := dev0, services := [] }

/-- The state right after `connectInternal` parked a connect call. -/
def sConnecting : BleState :=
  { s0 with activeConnectCall := some 1, bluetoothGatt := some gFresh }

/-- C8 counterexample: when the link drops while a connect is pending
(`onConnectionStateChange` with `STATE_DISCONNECTED`), the pending connect
call is rejected but the transport handle set by `connectInternal` is NOT
destroyed — refuting "the handle is destroyed on disconnect or connection
failure".  A follow-up connect is consequently rejected with "Already
connected to a device. Disconnect first." although nothing is connected. -/
theorem single_connection_counterexample :
    (handleEvent envGood sConnecting (.connectionStateChange false)).1.bluetoothGatt =
      some gFresh
    ∧ (handleEvent envGood sConnecting (.connectionStateChange false)).1.bluetoothGatt ≠ none
    ∧ (connectInternal envGood
        (handleEvent envGood sConnecting (.connectionStateChange false)).1
        { id := 2, deviceAddress := some ("AA:BB:CC:DD:EE:FF") }).2 =
      .settled (.reject ("Already connected to a device. Disconnect first.")) := by
  refine ⟨rfl, ?_, rfl⟩
  intro h
  simp [handleEvent, sConnecting, s0] at h

/-- C8 amended: the bridge state holds at most one transport handle (a
single optional field); a connect call issued while a handle exists (and
no connect is pending) is rejected with "Already connected to a device.
Disconnect first."; `connectInternal` never replaces an existing handle;
the handle is destroyed by an explicit disconnect whose platform teardown
does not throw; on connection failure the pending connect call is rejected
but the handle is retained until `disconnect` is called. -/
theorem single_connection_amended :
    (∀ env s c g addr, s.bluetoothGatt = some g → c.deviceAddress = some addr →
      addr ≠ "" → s.activeConnectCall = none →
      connectInternal env s c =
        (s, .settled (.reject ("Already connected to a device. Disconnect first."))))
    ∧ (∀ env s c g, s.bluetoothGatt = some g →
        (connectInternal env s c).1.bluetoothGatt = some g)
    ∧ (∀ env s c, env.disconnectThrows = false →
        (disconnect env s c).1.bluetoothGatt = none)
    ∧ (∀ env s, (handleEvent env s (.connectionStateChange false)).1.bluetoothGatt =
        s.bluetoothGatt)
    ∧ (∀ env s cid, s.activeConnectCall = some cid →
        (handleEvent env s (.connectionStateChange false)).2.1 =
          [(.connect, cid, .reject ("Connection failed or disconnected"))]) := by
  refine ⟨?_, ?_, ?_, ?_, ?_⟩
  · intro env s c g addr hg hda hne hac
    have hemp : addr.isEmpty = false :=
      Bool.eq_false_iff.mpr (fun h => hne ((String.isEmpty_iff addr).mp h))
    simp [connectInternal, hda, hemp, hac, hg]
  · intro env s c g hg
    rcases hda : c.deviceAddress with _ | addr
    · simpa [connectInternal, hda] using hg
    · by_cases hemp : addr.isEmpty <;>
        by_cases hac : s.activeConnectCall.isSome <;>
          simp [connectInternal, hda, hemp, hac, hg]
  · intro env s c ht
    cases hg : s.bluetoothGatt <;>
      simp [disconnect, disconnectInternal, hg, ht]
  · intro env s
    cases hac : s.activeConnectCall <;> simp [handleEvent, hac]
  · intro env s cid hac
    simp [handleEvent, hac]

/-- Witness for C8 (amended) at concrete inputs: a connect against the
connected fixture is rejected "Already connected...", the handle survives
it, a benign disconnect clears the handle, and a connection failure while
`sConnecting` is pending rejects call 1 while the handle survives. -/
theorem single_connection_amended_witness :
    connectInternal envGood sConn { id := 2, deviceAddress := some ("11:22:33:44:55:66") } =
      (sConn, .settled (.reject ("Already connected to a device. Disconnect first.")))
    ∧ (connectInternal envGood sConn
        { id := 2, deviceAddress := some ("11:22:33:44:55:66") }).1.bluetoothGatt = some g0
    ∧ (disconnect envGood sConn { id := 3 }).1.bluetoothGatt = none
    ∧ (handleEvent envGood sConnecting (.connectionStateChange false)).1.bluetoothGatt =
        sConnecting.bluetoothGatt
    ∧ (handleEvent envGood sConnecting (.connectionStateChange false)).2.1 =
        [(.connect, 1, .reject ("Connection failed or disconnected"))] := by
  refine ⟨single_connection_amended.1 envGood sConn _ g0 ("11:22:33:44:55:66")
            rfl rfl (by decide) rfl,
          single_connection_amended.2.1 envGood sConn _ g0 rfl,
          single_connection_amended.2.2.1 envGood sConn { id := 3 } rfl,
          single_connection_amended.2.2.2.1 envGood sConnecting,
          single_connection_amended.2.2.2.2 envGood sConnecting 1 rfl⟩

/-! ## Helper lemmas about the discovered-device map -/

/-- An address absent from the map has zero entries. -/
theorem countKey_eq_zero_of_not_contains (a : String) (m : List (String × Device))
    (h : containsKey a m = false) : countKey a m = 0 := by
  have h2 : m.find? (fun p => p.1 == a) = none := by
    cases hf : m.find? (fun p => p.1 == a) with
    | none => rfl
    | some x => rw [containsKey, hf] at h; simp at h
  have h3 := List.find?_eq_none.mp h2
  rw [countKey, List.length_eq_zero, List.filter_eq_nil_iff]
  exact h3

/-- Appending one binding adds one entry for its own key only. -/
theorem countKey_append_single (a b : String) (d : Device) (m : List (String × Device)) :
    countKey a (m ++ [(b, d)]) = countKey a m + (if b == a then 1 else 0) := by
  by_cases h : b == a <;> simp [countKey, List.filter_append, h]

/-- Appending one binding extends containment by its own key only. -/
theorem containsKey_append_single (a b : String) (d : Device) (m : List (String × Device)) :
    containsKey a (m ++ [(b, d)]) = (containsKey a m || (b == a)) := by
  by_cases h : b == a <;> simp [containsKey, List.find?_append, h]

/-- Entry count of an address after a sequence of discovery events: an
address already present keeps its count; a fresh address gets exactly one
entry exactly when some event carries it. -/
theorem runScan_countKey (env : Env) (a : String) (evts : List ScanEventData) :
    ∀ s : BleState,
      countKey a ((runScanResults env s evts).1.discoveredDevices) =
        if containsKey a s.discoveredDevices then countKey a s.discoveredDevices
        else if a ∈ evts.map ScanEventData.address then 1 else 0 := by
  induction evts with
  | nil =>
    intro s
    by_cases h : containsKey a s.discoveredDevices = true
    · simp [runScanResults, h]
    · simp [runScanResults, h,
        countKey_eq_zero_of_not_contains a _ (Bool.eq_false_iff.mpr h)]
  | cons ev rest ih =>
    intro s
    simp only [runScanResults]
    by_cases hce : containsKey ev.address s.discoveredDevices = true
    · have hce' : (s.discoveredDevices.find? (fun p => p.1 == ev.address)).isSome = true := hce
      simp only [handleEvent, hce', if_true]
      rw [ih s]
      by_cases hca : containsKey a s.discoveredDevices = true
      · simp [hca]
      · have hne : a ≠ ev.address := by
          intro h
          rw [h, hce] at hca
          exact hca rfl
        simp [Bool.eq_false_iff.mpr hca, List.mem_cons, hne]
    · have hce' : (s.discoveredDevices.find? (fun p => p.1 == ev.address)).isSome = false :=
        Bool.eq_false_iff.mpr hce
      simp only [handleEvent, hce', Bool.false_eq_true, if_false]
      rw [ih]
      simp only [containsKey_append_single, countKey_append_single]
      by_cases haddr : (ev.address == a) = true
      · have haeq : ev.address = a := by simpa using haddr
        subst haeq
        have hca : containsKey ev.address s.discoveredDevices = false :=
          Bool.eq_false_iff.mpr hce
        simp [hca, countKey_eq_zero_of_not_contains _ _ hca, List.mem_cons]
      · have hne : a ≠ ev.address := by
          intro h
          exact haddr (by simp [h])
        by_cases hca : containsKey a s.discoveredDevices = true <;>
          simp [hca, Bool.eq_false_iff.mpr haddr, List.mem_cons, hne]

/-- Device-found notification count of an address across a sequence of
discovery events: none if the address was already in the map, exactly one
if some event carries it, none otherwise. -/
theorem runScan_notifCount (env : Env) (a : String) (evts : List ScanEventData) :
    ∀ s : BleState,
      notifCountFor a ((runScanResults env s evts).2) =
        if containsKey a s.discoveredDevices then 0
        else if a ∈ evts.map ScanEventData.address then 1 else 0 := by
  induction evts with
  | nil =>
    intro s
    by_cases h : containsKey a s.discoveredDevices = true <;>
      simp [runScanResults, notifCountFor, h]
  | cons ev rest ih =>
    intro s
    simp only [runScanResults]
    by_cases hce : containsKey ev.address s.discoveredDevices = true
    · have hce' : (s.discoveredDevices.find? (fun p => p.1 == ev.address)).isSome = true := hce
      simp only [handleEvent, hce', if_true]
      rw [show ∀ x y : List Notif, notifCountFor a (x ++ y) =
            notifCountFor a x + notifCountFor a y from
            fun x y => List.countP_append _ x y]
      rw [ih s]
      by_cases hca : containsKey a s.discoveredDevices = true
      · simp [hca, notifCountFor]
      · have hne : a ≠ ev.address := by
          intro h
          rw [h, hce] at hca
          exact hca rfl
        simp [Bool.eq_false_iff.mpr hca, List.mem_cons, hne, notifCountFor]
    · have hce' : (s.discoveredDevices.find? (fun p => p.1 == ev.address)).isSome = false :=
        Bool.eq_false_iff.mpr hce
      simp only [handleEvent, hce', Bool.false_eq_true, if_false]
      rw [show ∀ x y : List Notif, notifCountFor a (x ++ y) =
            notifCountFor a x + notifCountFor a y from
            fun x y => List.countP_append _ x y]
      rw [ih]
      simp only [containsKey_append_single]
      by_cases haddr : (ev.address == a) = true
      · have haeq : ev.address = a := by simpa using haddr
        subst haeq
        have hca : containsKey ev.address s.discoveredDevices = false :=
          Bool.eq_false_iff.mpr hce
        simp [hca, notifCountFor, List.mem_cons]
      · have hne : a ≠ ev.address := by
          intro h
          exact haddr (by simp [h])
        by_cases hca : containsKey a s.discoveredDevices = true <;>
          simp [hca, Bool.eq_false_iff.mpr haddr, List.mem_cons, hne, notifCountFor]

/-! ## C1 — one pending call per operation category -/

/-- C1: while a call of a category is pending, a second (well-formed) call
of the same category is rejected with that category's "already in
progress" error and the state — in particular the pending slot — is left
unchanged; this holds for BLE scan, connect, read and write, and (with the
shared slot) for all four methods of both payment-plugin versions.
Moreover every settlement a platform event delivers is addressed to the id
currently stored in the corresponding slot, and every settlement an SDK
callback delivers is addressed to the id in the payment plugin's slot: the
first caller's id stays in the slot, so its eventual resolution goes to
the first caller and can never reach the rejected second caller. -/
theorem single_pending_slot_per_category :
    (∀ env s c cid, s.activeScanCall = some cid →
      env.adapterPresent = true → env.adapterEnabled = true → env.scannerAvailable = true →
      startScanInternal env s c = (s, .settled (.reject ("Scan already in progress"))))
    ∧ (∀ env s c cid addr, s.activeConnectCall = some cid →
      c.deviceAddress = some addr → addr ≠ "" →
      connectInternal env s c = (s, .settled (.reject ("Connection already in progress"))))
    ∧ (∀ env s c cid g su cu, s.activeReadCall = some cid → s.bluetoothGatt = some g →
      c.serviceUuid = some su → c.characteristicUuid = some cu →
      read env s c = (s, .settled (.reject ("Read operation already in progress"))))
    ∧ (∀ env s c cid g su cu v, s.activeWriteCall = some cid → s.bluetoothGatt = some g →
      c.serviceUuid = some su → c.characteristicUuid = some cu → c.value = some v →
      write env s c = (s, .settled (.reject ("Write operation already in progress")), none))
    ∧ (∀ env s c cid, s.activeCall = some cid →
      Payable.V1.pay env s c =
        (s, .settled (.reject ("Another operation is already in progress")))
      ∧ Payable.V1.voidTransaction env s c =
        (s, .settled (.reject ("Another operation is already in progress")))
      ∧ Payable.V1.getTransactionStatus env s c =
        (s, .settled (.reject ("Another operation is already in progress")))
      ∧ Payable.V1.getProfileList env s c =
        (s, .settled (.reject ("Another operation is already in progress")))
      ∧ Payable.V2.pay env s c =
        (s, .settled (.reject ("Another operation is already in progress")))
      ∧ Payable.V2.voidTransaction env s c =
        (s, .settled (.reject ("Another operation is already in progress")))
      ∧ Payable.V2.getTransactionStatus env s c =
        (s, .settled (.reject ("Another operation is already in progress")))
      ∧ Payable.V2.getProfileList env s c =
        (s, .settled (.reject ("Another operation is already in progress"))))
    ∧ (∀ env s e cat i o, (cat, i, o) ∈ (handleEvent env s e).2.1 → s.slotOf cat = some i)
    ∧ (∀ s r i o, (i, o) ∈ (Payable.V1.onPaymentSuccess s r).2 → s.activeCall = some i)
    ∧ (∀ s r i o, (i, o) ∈ (Payable.V1.onPaymentFailure s r).2 → s.activeCall = some i)
    ∧ (∀ s r i o, (i, o) ∈ (Payable.V1.onVoid s r).2 → s.activeCall = some i)
    ∧ (∀ s r i o, (i, o) ∈ (Payable.V1.onTransactionStatus s r).2 → s.activeCall = some i)
    ∧ (∀ s ps i o, (i, o) ∈ (Payable.V1.onProfileList s ps).2 → s.activeCall = some i) := by
  refine ⟨?_, ?_, ?_, ?_, ?_, ?_, ?_, ?_, ?_, ?_, ?_⟩
  · intro env s c cid hsc hap hae hsa
    simp [startScanInternal, hsc, hap, hae, hsa]
  · intro env s c cid addr hcc hda hne
    have hemp : addr.isEmpty = false :=
      Bool.eq_false_iff.mpr (fun h => hne ((String.isEmpty_iff addr).mp h))
    simp [connectInternal, hda, hemp, hcc]
  · intro env s c cid g su cu hrc hg hsu hcu
    simp [read, hg, hsu, hcu, hrc]
  · intro env s c cid g su cu v hwc hg hsu hcu hv
    simp [write, hg, hsu, hcu, hv, hwc]
  · intro env s c cid hac
    refine ⟨?_, ?_, ?_, ?_, ?_, ?_, ?_, ?_⟩ <;>
      simp [Payable.V1.pay, Payable.V1.voidTransaction, Payable.V1.getTransactionStatus,
            Payable.V1.getProfileList, Payable.V2.pay, Payable.V2.voidTransaction,
            Payable.V2.getTransactionStatus, Payable.V2.getProfileList,
            Payable.setCall, hac]
  · intro env s e cat i o hmem
    cases e with
    | scanResult a n r =>
      by_cases h : (s.discoveredDevices.find? (fun p => p.1 == a)).isSome <;>
        simp [handleEvent, h] at hmem
    | scanFailed code =>
      cases hsc : s.activeScanCall with
      | none => simp [handleEvent, hsc] at hmem
      | some cid =>
        simp [handleEvent, hsc] at hmem
        obtain ⟨h1, h2, _⟩ := hmem
        subst h1; subst h2
        simpa [BleState.slotOf] using hsc
    | scanTimeout =>
      cases hsc : s.activeScanCall with
      | none => simp [handleEvent, hsc] at hmem
      | some cid =>
        simp [handleEvent, hsc] at hmem
        obtain ⟨h1, h2, _⟩ := hmem
        subst h1; subst h2
        simpa [BleState.slotOf] using hsc
    | connectionStateChange conn =>
      cases conn with
      | true => simp [handleEvent] at hmem
      | false =>
        cases hcc : s.activeConnectCall with
        | none => simp [handleEvent, hcc] at hmem
        | some cid =>
          simp [handleEvent, hcc] at hmem
          obtain ⟨h1, h2, _⟩ := hmem
          subst h1; subst h2
          simpa [BleState.slotOf] using hcc
    | servicesDiscovered status dev svcs =>
      by_cases h : status == 0
      · cases hcc : s.activeConnectCall with
        | none => simp [handleEvent, h, hcc] at hmem
        | some cid =>
          by_cases hthrow : env.discoveredResolveThrows <;>
            simp [handleEvent, h, hcc, hthrow] at hmem <;>
            · obtain ⟨h1, h2, _⟩ := hmem
              subst h1; subst h2
              simpa [BleState.slotOf] using hcc
      · cases hcc : s.activeConnectCall with
        | none => simp [handleEvent, h, hcc] at hmem
        | some cid =>
          simp [handleEvent, h, hcc] at hmem
          obtain ⟨h1, h2, _⟩ := hmem
          subst h1; subst h2
          simpa [BleState.slotOf] using hcc
    | characteristicRead status u v =>
      by_cases h : status == 0 <;>
        cases hrc : s.activeReadCall with
        | none => simp [handleEvent, h, hrc] at hmem
        | some cid =>
          simp [handleEvent, h, hrc] at hmem
          obtain ⟨h1, h2, _⟩ := hmem
          subst h1; subst h2
          simpa [BleState.slotOf] using hrc
    | characteristicWrite status u =>
      by_cases h : status == 0 <;>
        cases hwc : s.activeWriteCall with
        | none => simp [handleEvent, h, hwc] at hmem
        | some cid =>
          simp [handleEvent, h, hwc] at hmem
          obtain ⟨h1, h2, _⟩ := hmem
          subst h1; subst h2
          simpa [BleState.slotOf] using hwc
    | characteristicChanged u v => simp [handleEvent] at hmem
    | mtuChanged st m => simp [handleEvent] at hmem
  · intro s r i o hmem
    cases hac : s.activeCall with
    | none => simp [Payable.V1.onPaymentSuccess, hac] at hmem
    | some cid =>
      simp [Payable.V1.onPaymentSuccess, hac] at hmem
      rw [hmem.1]
  · intro s r i o hmem
    cases hac : s.activeCall with
    | none => simp [Payable.V1.onPaymentFailure, hac] at hmem
    | some cid =>
      simp [Payable.V1.onPaymentFailure, hac] at hmem
      rw [hmem.1]
  · intro s r i o hmem
    cases hac : s.activeCall with
    | none => simp [Payable.V1.onVoid, hac] at hmem
    | some cid =>
      simp [Payable.V1.onVoid, hac] at hmem
      rw [hmem.1]
  · intro s r i o hmem
    cases hac : s.activeCall with
    | none => simp [Payable.V1.onTransactionStatus, hac] at hmem
    | some cid =>
      simp [Payable.V1.onTransactionStatus, hac] at hmem
      rw [hmem.1]
  · intro s ps i o hmem
    cases hac : s.activeCall with
    | none => simp [Payable.V1.onProfileList, hac] at hmem
    | some cid =>
      simp [Payable.V1.onProfileList, hac] at hmem
      rw [hmem.1]

/-- Idle state with a pending scan call (id 1). -/
def sScanPend : BleState := { s0 with activeScanCall := some 1 }

/-- Connected state with a pending read call (id 1). -/
def sReadPend : BleState := { sConn with activeReadCall := some 1 }

/-- Connected state with a pending write call (id 1). -/
def sWritePend : BleState := { sConn with activeWriteCall := some 1 }

/-- A benign SDK environment for the payment plugin. -/
def payEnv0 : Payable.PayEnv := { sdkThrows := false, msg := "boom" }

/-- Payment plugin state with an initialized client and a free slot. -/
def pIdle : Payable.PayState := { activeCall := none, clientInitialized := true }

/-- Payment plugin state with a pending call (id 1). -/
def pPend : Payable.PayState := { activeCall := some 1, clientInitialized := true }

/-- Witness for C1 at concrete inputs: with call 1 pending in each
category, a well-formed call 2 of the same category is rejected with the
category's "already in progress" message and the state is unchanged, and a
concrete platform event / SDK callback settlement is addressed to id 1. -/
theorem single_pending_slot_per_category_witness :
    startScanInternal envGood sScanPend { id := 2 } =
      (sScanPend, .settled (.reject ("Scan already in progress")))
    ∧ connectInternal envGood sConnecting
        { id := 2, deviceAddress := some ("AA:BB:CC:DD:EE:FF") } =
      (sConnecting, .settled (.reject ("Connection already in progress")))
    ∧ read envGood sReadPend
        { id := 2, serviceUuid := some svc0.uuid, characteristicUuid := some char0.uuid } =
      (sReadPend, .settled (.reject ("Read operation already in progress")))
    ∧ write envGood sWritePend
        { id := 2, serviceUuid := some svc0.uuid, characteristicUuid := some char0.uuid,
          value := some ("hi") } =
      (sWritePend, .settled (.reject ("Write operation already in progress")), none)
    ∧ Payable.V1.pay payEnv0 pPend { id := 2, amount := some 100 } =
      (pPend, .settled (.reject ("Another operation is already in progress")))
    ∧ Payable.V2.pay payEnv0 pPend { id := 2, amount := some 100 } =
      (pPend, .settled (.reject ("Another operation is already in progress")))
    ∧ sScanPend.slotOf .scan = some 1
    ∧ pPend.activeCall = some 1 := by
  obtain ⟨t1, t2, t3, t4, t5, t6, t7, -⟩ := single_pending_slot_per_category
  refine ⟨?_, ?_, ?_, ?_, ?_, ?_, ?_, ?_⟩
  · exact t1 envGood sScanPend { id := 2 } 1 rfl rfl rfl rfl
  · exact t2 envGood sConnecting { id := 2, deviceAddress := some ("AA:BB:CC:DD:EE:FF") }
      1 ("AA:BB:CC:DD:EE:FF") rfl rfl (by decide)
  · exact t3 envGood sReadPend
      { id := 2, serviceUuid := some svc0.uuid, characteristicUuid := some char0.uuid }
      1 g0 svc0.uuid char0.uuid rfl rfl rfl rfl
  · exact t4 envGood sWritePend
      { id := 2, serviceUuid := some svc0.uuid, characteristicUuid := some char0.uuid,
        value := some ("hi") }
      1 g0 svc0.uuid char0.uuid ("hi") rfl rfl rfl rfl rfl
  · exact (t5 payEnv0 pPend { id := 2, amount := some 100 } 1 rfl).1
  · exact (t5 payEnv0 pPend { id := 2, amount := some 100 } 1 rfl).2.2.2.2.1
  · exact t6 envGood sScanPend (.scanFailed 5) .scan 1
      (.reject ("Scan failed with error code: " ++ toString (5 : Int)))
      (by simp [handleEvent, sScanPend, s0])
  · exact t7 pPend
      { txId := "t1", cardNo := "c", cardType := 1, amount := 100,
        message := "ok", statusCode := 0 }
      1 (.resolve [("status", .str ("success")), ("txnId", .str ("t1")),
                   ("cardNo", .str ("c")), ("cardType", .num 1), ("amount", .num 100)])
      (by simp [Payable.V1.onPaymentSuccess, pPend])

/-! ## C2 — permission checking per operation -/

/-- C2 counterexample: with every BLE permission revoked, `read` is NOT
rejected with a permission error — in the idle state it rejects with the
not-connected error, and in a connected state (the platform not throwing)
it proceeds all the way to initiating the hardware read, parking the call.
Also `startScan` does not "fail fast" when permissions are absent: it
hands the call to the platform permission-request flow instead of
rejecting it.  This refutes "every BLE bridge operation first checks the
required platform permissions ... and fails fast with a permission error
if the permissions are absent, before doing anything else". -/
theorem permission_gate_counterexample :
    read envNoPerm s0
      { id := 7, serviceUuid := some svc0.uuid, characteristicUuid := some char0.uuid } =
      (s0, .settled (.reject ("Not connected to any device")))
    ∧ ("Not connected to any device" ≠ "BLE permissions denied")
    ∧ read envNoPerm sConn
        { id := 7, serviceUuid := some svc0.uuid, characteristicUuid := some char0.uuid } =
      ({ sConn with activeReadCall := some 7 }, .parked)
    ∧ startScan envNoPerm s0 { id := 8, method := "startScan" } =
      (s0, .permissionRequested) := by
  refine ⟨rfl, by decide, ?_, rfl⟩
  simp [read, sConn, s0, envNoPerm, envGood, Gatt.getService, Serviceb.getCharacteristic,
        g0, svc0, char0]

/-- C2 amended: the permission requirement is capability-gated by platform
version exactly as claimed (scan+connect grants on Android 12+,
fine-location below), but only `startScan` and `connect` consult it — and
when the permissions are absent they launch the platform permission
request (whose denial rejects the retried call with "BLE permissions
denied") rather than failing immediately.  The remaining operations
perform no up-front permission check: whatever the permission state,
`read`, `write`, `enableNotifications`, `getServices` and `requestMtu`
first check the connection handle, and `disconnect` always resolves with
success; permission problems there surface only as `SecurityException`s
caught around the platform calls themselves. -/
theorem permission_gate_amended :
    (∀ env, hasRequiredBlePermissions env =
      (if env.sdkAtLeastS then env.bluetoothScanGranted && env.bluetoothConnectGranted
       else env.fineLocationGranted))
    ∧ (∀ env s c, hasRequiredBlePermissions env = false →
        startScan env s c = (s, .permissionRequested)
        ∧ connect env s c = (s, .permissionRequested))
    ∧ (∀ env s c, hasRequiredBlePermissions env = false →
        permissionsCallback env s c = (s, .settled (.reject ("BLE permissions denied"))))
    ∧ (∀ env s c, s.bluetoothGatt = none →
        read env s c = (s, .settled (.reject ("Not connected to any device")))
        ∧ write env s c = (s, .settled (.reject ("Not connected to any device")), none)
        ∧ enableNotifications env s c = (s, .settled (.reject ("Not connected to any device")))
        ∧ getServices env s c = (s, .settled (.reject ("Not connected to any device")))
        ∧ requestMtu env s c = (s, .settled (.reject ("Not connected to any device")), none))
    ∧ (∀ env s c, (disconnect env s c).2 = .settled (.resolve [("success", .boolean true)])) := by
  refine ⟨fun env => rfl, ?_, ?_, ?_, fun env s c => rfl⟩
  · intro env s c h
    constructor <;> simp [startScan, connect, h]
  · intro env s c h
    simp [permissionsCallback, h]
  · intro env s c hg
    refine ⟨?_, ?_, ?_, ?_, ?_⟩ <;>
      simp [read, write, enableNotifications, getServices, requestMtu, hg]

/-- Witness for C2 (amended) at concrete inputs: with all permissions
revoked the gate is false, `startScan`/`connect` enter the permission
request flow, the denied retry is rejected with "BLE permissions denied",
and `read` on the idle state rejects with the not-connected error. -/
theorem permission_gate_amended_witness :
    hasRequiredBlePermissions envNoPerm = false
    ∧ startScan envNoPerm s0 { id := 8, method := "startScan" } = (s0, .permissionRequested)
    ∧ connect envNoPerm s0 { id := 8, method := "connect" } = (s0, .permissionRequested)
    ∧ permissionsCallback envNoPerm s0 { id := 8, method := "startScan" } =
      (s0, .settled (.reject ("BLE permissions denied")))
    ∧ read envNoPerm s0 { id := 9 } = (s0, .settled (.reject ("Not connected to any device")))
    ∧ (disconnect envNoPerm s0 { id := 10 }).2 =
      .settled (.resolve [("success", .boolean true)]) := by
  refine ⟨?_, ?_, ?_, ?_, ?_, ?_⟩
  · exact (permission_gate_amended.1 envNoPerm).trans (by decide)
  · exact (permission_gate_amended.2.1 envNoPerm s0 { id := 8, method := "startScan" } rfl).1
  · exact (permission_gate_amended.2.1 envNoPerm s0 { id := 8, method := "connect" } rfl).2
  · exact permission_gate_amended.2.2.1 envNoPerm s0 { id := 8, method := "startScan" } rfl
  · exact (permission_gate_amended.2.2.2.1 envNoPerm s0 { id := 9 } rfl).1
  · exact permission_gate_amended.2.2.2.2 envNoPerm s0 { id := 10 }

/-! ## C4 — connect is reported complete only after service discovery -/

/-- C4: the `connect` method itself never resolves the incoming call; when
a connect call is pending, the only event that resolves the connect slot
is a successful `onServicesDiscovered` (with the platform not throwing
while building the result), and the resolution payload carries exactly the
device address, device name and service count; a failed service discovery
rejects the pending connect call with "Service discovery failed", and a
link drop before discovery rejects it with "Connection failed or
disconnected". -/
theorem connect_completes_only_after_discovery :
    (∀ env s c o, (connect env s c).2 ≠ .settled (.resolve o))
    ∧ (∀ env s e cid p, s.activeConnectCall = some cid →
        (SlotCat.connect, cid, Outcome.resolve p) ∈ (handleEvent env s e).2.1 →
        ∃ dev svcs, e = .servicesDiscovered 0 dev svcs
          ∧ env.discoveredResolveThrows = false
          ∧ p = [("success", .boolean true), ("deviceAddress", .str dev.address),
                 ("deviceName", jsName dev.name), ("servicesCount", .num svcs.length)])
    ∧ (∀ env s cid st dev svcs, s.activeConnectCall = some cid → (st == 0) = false →
        handleEvent env s (.servicesDiscovered st dev svcs) =
          ({ s with activeConnectCall := none },
           [(.connect, cid, .reject ("Service discovery failed"))], []))
    ∧ (∀ env s cid, s.activeConnectCall = some cid →
        handleEvent env s (.connectionStateChange false) =
          ({ s with activeConnectCall := none },
           [(.connect, cid, .reject ("Connection failed or disconnected"))],
           [.deviceDisconnected])) := by
  refine ⟨?_, ?_, ?_, ?_⟩
  · intro env s c o
    by_cases hp : hasRequiredBlePermissions env
    · rcases hda : c.deviceAddress with _ | addr
      · simp [connect, connectInternal, hp, hda]
      · by_cases hemp : addr.isEmpty <;>
          by_cases hcc : s.activeConnectCall.isSome <;>
            by_cases hg : s.bluetoothGatt.isSome <;>
              by_cases hav : env.addressValid addr <;>
                by_cases hct : env.connectGattThrows <;>
                  simp [connect, connectInternal, hp, hda, hemp, hcc, hg, hav, hct]
    · simp [connect, hp]
  · intro env s e cid p hcc hmem
    cases e with
    | scanResult a n r =>
      by_cases h : (s.discoveredDevices.find? (fun q => q.1 == a)).isSome <;>
        simp [handleEvent, h] at hmem
    | scanFailed code =>
      cases hsc : s.activeScanCall <;> simp [handleEvent, hsc] at hmem
    | scanTimeout =>
      cases hsc : s.activeScanCall <;> simp [handleEvent, hsc] at hmem
    | connectionStateChange conn =>
      cases conn <;> simp [handleEvent, hcc] at hmem
    | servicesDiscovered st dev svcs =>
      by_cases h : st == 0
      · by_cases hthrow : env.discoveredResolveThrows
        · simp [handleEvent, h, hcc, hthrow] at hmem
        · have hst : st = 0 := by
            have := h
            simpa using this
          refine ⟨dev, svcs, by rw [hst], by simpa using hthrow, ?_⟩
          simp [handleEvent, h, hcc, hthrow] at hmem
          exact hmem
      · simp [handleEvent, h, hcc] at hmem
    | characteristicRead st u v =>
      by_cases h : st == 0 <;> cases hrc : s.activeReadCall <;>
        simp [handleEvent, h, hrc] at hmem
    | characteristicWrite st u =>
      by_cases h : st == 0 <;> cases hwc : s.activeWriteCall <;>
        simp [handleEvent, h, hwc] at hmem
    | characteristicChanged u v => simp [handleEvent] at hmem
    | mtuChanged st m => simp [handleEvent] at hmem
  · intro env s cid st dev svcs hcc hst
    simp [handleEvent, hst, hcc]
  · intro env s cid hcc
    simp [handleEvent, hcc]

/-- Witness for C4 at concrete inputs: with connect call 1 pending, a
successful discovery event is (by the theorem) the event that resolved the
slot; a failed discovery (status 257) rejects it; a link drop rejects it;
and the `connect` method itself never resolves its caller. -/
theorem connect_completes_only_after_discovery_witness :
    (∃ dev svcs, (BleEvent.servicesDiscovered 0 dev0 [svc0]) = .servicesDiscovered 0 dev svcs
      ∧ envGood.discoveredResolveThrows = false
      ∧ [("success", JSVal.boolean true), ("deviceAddress", JSVal.str dev0.address),
         ("deviceName", jsName dev0.name), ("servicesCount", JSVal.num 1)] =
        [("success", .boolean true), ("deviceAddress", .str dev.address),
         ("deviceName", jsName dev.name), ("servicesCount", .num svcs.length)])
    ∧ handleEvent envGood sConnecting (.servicesDiscovered 257 dev0 []) =
      ({ sConnecting with activeConnectCall := none },
       [(.connect, 1, .reject ("Service discovery failed"))], [])
    ∧ handleEvent envGood sConnecting (.connectionStateChange false) =
      ({ sConnecting with activeConnectCall := none },
       [(.connect, 1, .reject ("Connection failed or disconnected"))],
       [.deviceDisconnected])
    ∧ (connect envGood s0 { id := 1, deviceAddress := some ("AA:BB:CC:DD:EE:FF") }).2 ≠
      .settled (.resolve [("success", .boolean true)]) := by
  refine ⟨?_, ?_, ?_, ?_⟩
  · exact connect_completes_only_after_discovery.2.1 envGood sConnecting
      (.servicesDiscovered 0 dev0 [svc0]) 1
      [("success", .boolean true), ("deviceAddress", .str dev0.address),
       ("deviceName", jsName dev0.name), ("servicesCount", .num 1)]
      rfl (by simp [handleEvent, sConnecting, s0, envGood])
  · exact connect_completes_only_after_discovery.2.2.1 envGood sConnecting 1 257 dev0 []
      rfl (by decide)
  · exact connect_completes_only_after_discovery.2.2.2 envGood sConnecting 1 rfl
  · exact connect_completes_only_after_discovery.1 envGood s0
      { id := 1, deviceAddress := some ("AA:BB:CC:DD:EE:FF") }
      [("success", .boolean true)]

/-! ## C5 — scan results deduplicated by device address -/

/-- C5: within a scan window (the map starting cleared), feeding a
sequence of discovery events in which some address occurs two or more
times yields exactly one entry of the discovered-device map under that
address and exactly one (hence at most one) device-found notification for
it; and starting a new scan (its guards passing) clears the map. -/
theorem scan_dedup_by_address (env : Env) (s : BleState) (evts : List ScanEventData)
    (a : String) (hclean : s.discoveredDevices = [])
    (hcnt : 2 ≤ (evts.map ScanEventData.address).count a) :
    countKey a ((runScanResults env s evts).1.discoveredDevices) = 1
    ∧ notifCountFor a ((runScanResults env s evts).2) = 1
    ∧ notifCountFor a ((runScanResults env s evts).2) ≤ 1
    ∧ (∀ env' s' c, env'.adapterPresent = true → env'.adapterEnabled = true →
        env'.scannerAvailable = true → s'.activeScanCall = none →
        (startScanInternal env' s' c).1.discoveredDevices = []) := by
  have hmem : a ∈ evts.map ScanEventData.address :=
    List.count_pos_iff.mp (by omega)
  have hcont : containsKey a s.discoveredDevices = false := by
    rw [hclean]; rfl
  refine ⟨?_, ?_, ?_, ?_⟩
  · rw [runScan_countKey env a evts s, hcont]
    simp [hmem]
  · rw [runScan_notifCount env a evts s, hcont]
    simp [hmem]
  · rw [runScan_notifCount env a evts s, hcont]
    simp [hmem]
  · intro env' s' c hap hae hsa hsc
    by_cases ht : env'.startScanThrows <;>
      simp [startScanInternal, hap, hae, hsa, hsc, ht]

/-- Witness for C5 at concrete inputs: two events for the same address
(plus one other) leave one map entry and one notification for it, and a
fresh scan on a state with a stale discovery clears the map. -/
theorem scan_dedup_by_address_witness :
    countKey ("AA:BB:CC:DD:EE:FF")
      ((runScanResults envGood s0
        [{ address := "AA:BB:CC:DD:EE:FF", name := some ("ESP32_Tablet_Link"), rssi := -50 },
         { address := "11:22:33:44:55:66", name := none, rssi := -70 },
         { address := "AA:BB:CC:DD:EE:FF", name := some ("ESP32_Tablet_Link"), rssi := -55 }]
       ).1.discoveredDevices) = 1
    ∧ notifCountFor ("AA:BB:CC:DD:EE:FF")
      ((runScanResults envGood s0
        [{ address := "AA:BB:CC:DD:EE:FF", name := some ("ESP32_Tablet_Link"), rssi := -50 },
         { address := "11:22:33:44:55:66", name := none, rssi := -70 },
         { address := "AA:BB:CC:DD:EE:FF", name := some ("ESP32_Tablet_Link"), rssi := -55 }]
       ).2) = 1
    ∧ (startScanInternal envGood
        { s0 with discoveredDevices := [("AA:BB:CC:DD:EE:FF", dev0)] }
        { id := 1 }).1.discoveredDevices = [] := by
  have h := scan_dedup_by_address envGood s0
    [{ address := "AA:BB:CC:DD:EE:FF", name := some ("ESP32_Tablet_Link"), rssi := -50 },
     { address := "11:22:33:44:55:66", name := none, rssi := -70 },
     { address := "AA:BB:CC:DD:EE:FF", name := some ("ESP32_Tablet_Link"), rssi := -55 }]
    ("AA:BB:CC:DD:EE:FF") rfl (by decide)
  exact ⟨h.1, h.2.1,
    h.2.2.2 envGood { s0 with discoveredDevices := [("AA:BB:CC:DD:EE:FF", dev0)] }
      { id := 1 } rfl rfl rfl rfl⟩

/-! ## C7 — the "Cmd:" command tag -/

/-- The facade state connected to the demo peripheral with the
repository's hard-coded service/characteristic selected. -/
def stFacade : BleService.ServiceState :=
  { connectedDevice := some dev0,
    selectedService := some svc0.uuid,
    selectedCharacteristic := some char0.uuid }

/-- C7, evaluated at the failing input: the facade passes every message
through unmodified — `sendMessage "LED_ON"` forwards a write request whose
value is exactly `"LED_ON"`, the native `write` hands exactly `"LED_ON"`
(not `"Cmd:LED_ON"`) to the characteristic, and in general the command
text of the forwarded request always equals the message given to
`sendMessage`.  The `sendCommand` helper that the repository's own
documentation describes as prefixing `"Cmd:"` (and that `App_temp.js`
invokes) does not exist in `bleService.js`. -/
theorem cmd_tag_not_added_by_facade :
    BleService.sendMessage stFacade ("LED_ON") =
      .ok { id := 0, serviceUuid := some svc0.uuid,
            characteristicUuid := some char0.uuid, value := some ("LED_ON") }
    ∧ (write envGood sConn
        { id := 0, serviceUuid := some svc0.uuid,
          characteristicUuid := some char0.uuid, value := some ("LED_ON") }).2.2 =
      some ("LED_ON")
    ∧ some ("LED_ON") ≠ some ("Cmd:" ++ "LED_ON")
    ∧ (∀ m, ∃ c, BleService.sendMessage stFacade m = .ok c ∧ c.value = some m) := by
  refine ⟨rfl, ?_, by decide, fun m => ⟨_, rfl, rfl⟩⟩
  simp [write, sConn, s0, envGood, g0, svc0, char0,
        Gatt.getService, Serviceb.getCharacteristic]

/-! ## C9 — equivalence of the two payment-plugin versions -/

/-- C9 counterexample: starting from the idle initialized state, `pay`
with a missing amount followed by a well-formed `pay` distinguishes the
two implementations — the android/ version leaves the slot occupied after
the validation failure, so the second call is rejected as already in
progress, while the stand-alone version releases the slot and parks the
second call. -/
theorem payable_equiv_counterexample :
    (Payable.V1.pay payEnv0 pIdle { id := 1 }).1.activeCall = some 1
    ∧ (Payable.V2.pay payEnv0 pIdle { id := 1 }).1.activeCall = none
    ∧ (Payable.V1.pay payEnv0 (Payable.V1.pay payEnv0 pIdle { id := 1 }).1
        { id := 2, amount := some 100 }).2 =
      .settled (.reject ("Another operation is already in progress"))
    ∧ (Payable.V2.pay payEnv0 (Payable.V2.pay payEnv0 pIdle { id := 1 }).1
        { id := 2, amount := some 100 }).2 = .parked
    ∧ (Payable.V1.pay payEnv0 (Payable.V1.pay payEnv0 pIdle { id := 1 }).1
        { id := 2, amount := some 100 }).2 ≠
      (Payable.V2.pay payEnv0 (Payable.V2.pay payEnv0 pIdle { id := 1 }).1
        { id := 2, amount := some 100 }).2 := by
  refine ⟨rfl, rfl, rfl, rfl, ?_⟩
  intro h
  simp [Payable.V1.pay, Payable.V2.pay, Payable.setCall, pIdle, payEnv0] at h

/-- C9 amended: the two payment-plugin implementations agree call-by-call
whenever the call passes its argument validation, the SDK client is
initialized and the forwarded SDK request does not throw, and their SDK
callbacks are identical; they are NOT equivalent in general — a call that
fails argument validation leaves the slot occupied in the android/ version
but releases it in the stand-alone version (so only in the latter can a
subsequent call proceed), and the client-uninitialized and SDK-exception
paths of void/status/profile-list crash the android/ version while the
stand-alone one rejects cleanly. -/
theorem payable_equiv_amended :
    (∀ env s c a, c.amount = some a → s.clientInitialized = true → env.sdkThrows = false →
      Payable.V1.pay env s c = Payable.V2.pay env s c)
    ∧ (∀ env s c t k, c.txId = some t → c.cardType = some k →
        s.clientInitialized = true → env.sdkThrows = false →
        Payable.V1.voidTransaction env s c = Payable.V2.voidTransaction env s c
        ∧ Payable.V1.getTransactionStatus env s c = Payable.V2.getTransactionStatus env s c)
    ∧ (∀ env s c, s.clientInitialized = true → env.sdkThrows = false →
        Payable.V1.getProfileList env s c = Payable.V2.getProfileList env s c)
    ∧ (∀ s r, Payable.V1.onPaymentSuccess s r = Payable.V2.onPaymentSuccess s r)
    ∧ (∀ s r, Payable.V1.onPaymentFailure s r = Payable.V2.onPaymentFailure s r)
    ∧ (∀ s r, Payable.V1.onVoid s r = Payable.V2.onVoid s r)
    ∧ (∀ s r, Payable.V1.onTransactionStatus s r = Payable.V2.onTransactionStatus s r)
    ∧ (∀ s ps, Payable.V1.onProfileList s ps = Payable.V2.onProfileList s ps) := by
  refine ⟨?_, ?_, ?_, fun s r => rfl, fun s r => rfl, fun s r => rfl,
          fun s r => rfl, fun s ps => rfl⟩
  · intro env s c a ha hcl ht
    cases hac : s.activeCall <;>
      simp [Payable.V1.pay, Payable.V2.pay, Payable.setCall, hac, ha, hcl, ht]
  · intro env s c t k htx hct hcl hthr
    constructor <;> (cases hac : s.activeCall <;>
      simp [Payable.V1.voidTransaction, Payable.V2.voidTransaction,
            Payable.V1.getTransactionStatus, Payable.V2.getTransactionStatus,
            Payable.setCall, hac, htx, hct, hcl, hthr])
  · intro env s c hcl hthr
    cases hac : s.activeCall <;>
      simp [Payable.V1.getProfileList, Payable.V2.getProfileList,
            Payable.setCall, hac, hcl, hthr]

/-- Witness for C9 (amended) at concrete inputs: on a well-formed pay /
void / profile-list call against the idle initialized state with a benign
SDK, both implementations produce identical results. -/
theorem payable_equiv_amended_witness :
    Payable.V1.pay payEnv0 pIdle { id := 5, amount := some 250 } =
      Payable.V2.pay payEnv0 pIdle { id := 5, amount := some 250 }
    ∧ Payable.V1.voidTransaction payEnv0 pIdle { id := 6, txId := some ("t9"), cardType := some 1 } =
      Payable.V2.voidTransaction payEnv0 pIdle { id := 6, txId := some ("t9"), cardType := some 1 }
    ∧ Payable.V1.getProfileList payEnv0 pIdle { id := 7 } =
      Payable.V2.getProfileList payEnv0 pIdle { id := 7 } := by
  refine ⟨payable_equiv_amended.1 payEnv0 pIdle { id := 5, amount := some 250 } 250 rfl rfl rfl,
          (payable_equiv_amended.2.1 payEnv0 pIdle
            { id := 6, txId := some ("t9"), cardType := some 1 } ("t9") 1 rfl rfl rfl rfl).1,
          payable_equiv_amended.2.2.1 payEnv0 pIdle { id := 7 } rfl rfl⟩

end BleSpec

